import Mathlib

/-!
Shallow embedding of kamerstuk.py (de-mvt-overvraagd): Python string
primitives modelled on lists of code points, the KamerstukType enum, the
title classifier, the paginated SRU fetch loop, and the memoizing lookup
with its persistent cache.
-/

namespace Kamerstuk

/-! ### Python string primitives, modelled on lists of code points -/

/-- Python startswith on code-point lists. -/
def chars_startswith : List Char → List Char → Bool
  | _, [] => true
  | [], _ :: _ => false
  | c :: s, p :: ps => c == p && chars_startswith s ps

/-- Python s.startswith(p). -/
def py_startswith (s p : String) : Bool := chars_startswith s.data p.data

/-- Python s.endswith(p). -/
def py_endswith (s p : String) : Bool := chars_startswith s.data.reverse p.data.reverse

/-- Containment of sub as a contiguous run inside s, on code-point lists. -/
def chars_contains_sub : List Char → List Char → Bool
  | [], sub => sub.isEmpty
  | c :: rest, sub => chars_startswith (c :: rest) sub || chars_contains_sub rest sub

/-- Python membership test sub in s (substring containment). -/
def py_contains (s sub : String) : Bool := chars_contains_sub s.data sub.data

/-- Python s.lower(), ASCII case folding (the only case arising in the data). -/
def py_lower (s : String) : String := String.mk (s.data.map Char.toLower)

/-- Python s.replace(a, b) for single-character a and b. -/
def py_replace_char (s : String) (a b : Char) : String :=
  String.mk (s.data.map fun c => if c = a then b else c)

/-- Code points after the first occurrence of sep; none when sep does not occur. -/
def chars_after_sep (sep : List Char) : List Char → Option (List Char)
  | [] => none
  | c :: rest =>
    if chars_startswith (c :: rest) sep then some ((c :: rest).drop sep.length)
    else chars_after_sep sep rest

/-- Code points before the first occurrence of sep (all of them when sep does not occur). -/
def chars_before_sep (sep : List Char) : List Char → List Char
  | [] => []
  | c :: rest =>
    if chars_startswith (c :: rest) sep then []
    else c :: chars_before_sep sep rest

/-- Python title.split(sep)[1] together with the IndexError handler substituting ""
(kamerstuk.py lines 76-80): the segment strictly between the first and the second
occurrence of sep, running to the end of the string when there is no second
occurrence, and "" when sep does not occur at all. -/
def py_split_second (s sep : String) : String :=
  match chars_after_sep sep.data s.data with
  | none => ""
  | some r => String.mk (chars_before_sep sep.data r)

/-- Python re.compile(r"\s+").sub("", s) (kamerstuk.py lines 19, 224-225):
remove every whitespace character. -/
def strip_whitespace (s : String) : String :=
  String.mk (s.data.filter fun c => !c.isWhitespace)

/-! ### The KamerstukType enum (kamerstuk.py lines 24-40) -/

/-- Specialized enum for kamerstuk types, one constructor per enum member of
KamerstukType in kamerstuk.py lines 24-40. -/
inductive KamerstukType
  | KONINKLIJKE_BOODSCHAP
  | GELEIDENDE_BRIEF
  | WETSVOORSTEL
  | MEMORIE_VAN_TOELICHTING
  | ADVIES_RVS
  | VOORLICHTING_RVS
  | VERSLAG
  | NOTA_NA_VERSLAG
  | NOTA_VAN_WIJZIGING
  | MEMORIE_VAN_ANTWOORD
  | AMENDEMENT
  | MOTIE
  | BRIEF
  | JAARVERSLAG
  | ONBEKEND
  deriving DecidableEq, Repr, Fintype

/-- The .value string of each enum member (kamerstuk.py lines 26-40). -/
def KamerstukType.value : KamerstukType → String
  | .KONINKLIJKE_BOODSCHAP => "Koninklijke boodschap"
  | .GELEIDENDE_BRIEF => "Geleidende brief"
  | .WETSVOORSTEL => "Voorstel van wet"
  | .MEMORIE_VAN_TOELICHTING => "Memorie van toelichting"
  | .ADVIES_RVS => "Advies Raad van State"
  | .VOORLICHTING_RVS => "Voorlichting van de Afdeling advisering van de Raad van State"
  | .VERSLAG => "Verslag"
  | .NOTA_NA_VERSLAG => "Nota naar aanleiding van het verslag"
  | .NOTA_VAN_WIJZIGING => "Nota van wijziging"
  | .MEMORIE_VAN_ANTWOORD => "Memorie van antwoord"
  | .AMENDEMENT => "Amendement"
  | .MOTIE => "Motie"
  | .BRIEF => "Brief"
  | .JAARVERSLAG => "Jaarverslag"
  | .ONBEKEND => "Onbekend"

/-! ### Records -/

/-- The text fields kamerstuk.py reads from a record element via
record.find(...).text; none models an absent element, on which the .text
access raises AttributeError. -/
structure KstRecord where
  product_area : Option String
  dossiernummer : Option String
  ondernummer : Option String
  dcterms_title : Option String
  dcterms_description : Option String
  dossiertitel : Option String
  documenttitel : Option String
  vergaderjaar : Option String
  creator : Option String
  opgegeven_kamerstuktype : Option String
  deriving DecidableEq, Repr

/-! ### The title classifier (kamerstuk.py lines 70-169) -/

/-- Title normalization, kamerstuk.py lines 73-74: lowercase, then replace
every digit 0 by the letter o. -/
def normalize_title (title : String) : String :=
  py_replace_char (py_lower title) '0' 'o'

/-- The ordered early-return rule cascade of get_kamerstuktype_from_title,
kamerstuk.py lines 87-159, applied to the already-normalized title and to the
opgegeven_kamerstuktype hint (lines 82-85; absence of the element yields "").
Returns none exactly when no rule fires (so that control reaches line 161). -/
def kamerstuk_rules (title : String) (opgegeven_kamerstuktype : String) : Option KamerstukType :=
  if opgegeven_kamerstuktype = "Brief" ∨ py_startswith title "brief" then
    some .BRIEF
  else if opgegeven_kamerstuktype = "Amendement" then
    some .AMENDEMENT
  else if opgegeven_kamerstuktype = "Motie" then
    some .MOTIE
  else if opgegeven_kamerstuktype = "Voorstel van wet" then
    some .WETSVOORSTEL
  else if opgegeven_kamerstuktype = "Koninklijke boodschap" ∨ py_startswith title "koninklijke boodschap" then
    some .KONINKLIJKE_BOODSCHAP
  else if opgegeven_kamerstuktype = "Memorie van toelichting" then
    some .MEMORIE_VAN_TOELICHTING
  else if opgegeven_kamerstuktype = "Jaarverslag" then
    some .JAARVERSLAG
  else if opgegeven_kamerstuktype = "Verslag" then
    some .VERSLAG
  else if py_startswith title "motie" ∨ py_startswith title "gewijzigde motie" then
    some .MOTIE
  else if py_startswith title "amendement" ∨ py_startswith title "gewijzigd amendement" then
    some .AMENDEMENT
  else if py_startswith title "voorstel van wet" ∨ py_startswith title "gewijzigd voorstel van wet" ∨ py_startswith title "ontwerp van wet" then
    some .WETSVOORSTEL
  else if py_endswith title "voorstel van wet" ∨ py_endswith title "gewijzigd voorstel van wet" then
    some .WETSVOORSTEL
  else if py_startswith title "advies afdeling advisering raad van state" ∨ py_startswith title "advies raad van state" then
    some .ADVIES_RVS
  else if py_startswith title "voorlopig verslag" ∨ py_startswith title "verslag" ∨ py_startswith title "eindverslag" ∨ py_startswith title "nader voorlopig verslag" then
    some .VERSLAG
  else if py_endswith title "voorlopig verslag" ∨ py_endswith title "verslag" ∨ py_endswith title "eindverslag" ∨ py_startswith title "nader voorlopig verslag" then
    some .VERSLAG
  else if py_startswith title "nota naar aanleiding van het" ∨ py_endswith title "nota naar aanleiding van het" then
    some .NOTA_NA_VERSLAG
  else if py_startswith title "memorie van toelichting" then
    some .MEMORIE_VAN_TOELICHTING
  else if py_endswith title "memorie van toelichting" then
    some .MEMORIE_VAN_TOELICHTING
  else if py_startswith title "memorie van antwoord" ∨ py_startswith title "nadere memorie van antwoord" then
    some .MEMORIE_VAN_ANTWOORD
  else if py_endswith title "memorie van antwoord" ∨ py_endswith title "nadere memorie van antwoord" then
    some .MEMORIE_VAN_ANTWOORD
  else if py_startswith title "voorlichting van de afdeling advisering van de raad van state" then
    some .VOORLICHTING_RVS
  else if py_startswith (py_lower title) "jaarverslag" then
    some .JAARVERSLAG
  else if py_contains (py_lower title) "nota van wijziging" then
    some .NOTA_VAN_WIJZIGING
  else
    none

/-- The body of get_kamerstuktype_from_title with the is_tail flag encoded as
the number of tail passes still allowed: the flag value False corresponds to
allowance 1 and True to allowance 0, so the single permitted recursion level
(lines 163-167) is the structural step on this counter. -/
def get_kamerstuktype_aux (record : KstRecord) (levels : Nat) (title : String) : KamerstukType :=
  let title' := normalize_title title
  let title_tail := py_split_second title' "; "
  let opgegeven_kamerstuktype := record.opgegeven_kamerstuktype.getD ""
  match kamerstuk_rules title' opgegeven_kamerstuktype with
  | some k => k
  | none =>
    match levels with
    | 0 => .ONBEKEND
    | l + 1 => get_kamerstuktype_aux record l title_tail

/-- kamerstuk.py lines 70-169: guess the kamerstuk document type from the
title. A first pass (is_tail = false) may classify the tail segment once with
the flag set; a tail pass that matches no rule returns ONBEKEND. -/
def get_kamerstuktype_from_title (title : String) (record : KstRecord) (is_tail : Bool := false) : KamerstukType :=
  get_kamerstuktype_aux record (if is_tail then 0 else 1) title

/-! ### Paginated SRU fetch (kamerstuk.py lines 172-215) -/

/-- The two fields of an SRU response page that koop_sru_api_request_all
consumes: sru:numberOfRecords and the sru:record list. -/
structure SruResponse (α : Type) where
  numberOfRecords : Nat
  records : List α
  deriving Repr

/-- The while loop of koop_sru_api_request_all (lines 209-214), with the
network abstracted as a function from (query, startRecord, maximumRecords) to
the response page. The fuel argument bounds the number of further page
requests; none models the loop still running after fuel further requests.
Alongside the accumulated records, the list of start offsets requested so far
is threaded through so that theorems can speak about the requests issued. -/
def koop_sru_loop {α : Type} (req : String → Nat → Nat → SruResponse α) (query : String)
    (number_of_records maximum_records : Nat) :
    Nat → Nat → List α → List Nat → Option (List α × List Nat)
  | 0, _start_record, records, offsets =>
    if records.length < number_of_records then none else some (records, offsets)
  | fuel + 1, start_record, records, offsets =>
    if records.length < number_of_records then
      let start_record' := start_record + maximum_records
      let xml := req query start_record' maximum_records
      koop_sru_loop req query number_of_records maximum_records fuel start_record'
        (records ++ xml.records) (offsets ++ [start_record'])
    else
      some (records, offsets)

/-- kamerstuk.py lines 195-215: query the KOOP SRU API and return all records,
even if this requires multiple requests. The first request is issued at start
offset 0 with page size 100; the declared total is read from the first
response only. Returns the collected records together with the list of start
offsets of the page requests issued, or none when the loop does not terminate
within fuel further requests. -/
def koop_sru_api_request_all {α : Type} (req : String → Nat → Nat → SruResponse α)
    (query : String) (fuel : Nat) : Option (List α × List Nat) :=
  let start_record := 0
  let maximum_records := 100
  let xml := req query start_record maximum_records
  let records := xml.records
  let number_of_records := xml.numberOfRecords
  koop_sru_loop req query number_of_records maximum_records fuel start_record records [start_record]

/-! ### The memoizing lookup (kamerstuk.py lines 218-290) and the cache -/

/-- Python dict lookup d[k] (on a duplicate-free association list). -/
def dictGet {β : Type} : List (String × β) → String → Option β
  | [], _ => none
  | (k', v') :: rest, k => if k' = k then some v' else dictGet rest k

/-- Python dict assignment d[k] = v: replace the binding of k, or append one. -/
def dictSet {β : Type} : List (String × β) → String → β → List (String × β)
  | [], k, v => [(k, v)]
  | (k', v') :: rest, k, v =>
    if k' = k then (k, v) :: rest else (k', v') :: dictSet rest k v

/-- The composed result entity (kamerstuk.py lines 273-281). -/
structure KstInfo where
  dossiernummer : String
  ondernummer : String
  vergaderjaar : String
  kamer : String
  kamerstuktype : String
  documenttitel : String
  dossiertitel : String
  deriving DecidableEq, Repr

/-- The two-level in-memory cache __kamerstuk_information_cache:
dossiernummer, then ondernummer, to the stored result. -/
abbrev Cache := List (String × List (String × KstInfo))

/-- The cache-hit test of kamerstuk.py lines 227-229: dossiernummer present
and ondernummer present under it. -/
def cache_lookup (c : Cache) (dossiernummer ondernummer : String) : Option KstInfo :=
  match dictGet c dossiernummer with
  | some inner => dictGet inner ondernummer
  | none => none

/-- The module-level mutable state: the in-memory cache and the contents of
the persistent cache file kamerstuk_information.json (as last written by
__save_kamerstuk_information_cache). -/
structure ModuleState where
  cache : Cache
  file : Cache
  deriving DecidableEq, Repr

/-- Unhandled Python exceptions escaping get_kst_information: IndexError from
records[0] on an empty result list, AttributeError from a .text access on a
missing mandatory element, and UnboundLocalError from reading creator at line
262 when neither product-area branch ran. -/
inductive KstError
  | notFound
  | missingField
  | unboundLocal
  deriving DecidableEq, Repr

/-- Observable outcome of one get_kst_information call: the returned value or
escaping exception, the module state afterwards, and the list of SRU queries
sent to the network (empty exactly when no network access happened). -/
structure LookupResult where
  result : Except KstError KstInfo
  state : ModuleState
  queries : List String
  deriving Repr

/-- The four extracted fields that are used after the per-product-area
extraction blocks (kamerstuk.py lines 236-260). -/
structure KstFields where
  dossiertitel : String
  documenttitel : String
  vergaderjaar : String
  creator : String
  deriving DecidableEq, Repr

/-- Old-style extraction (kamerstuk.py lines 238-245): every field is read
from one fixed path with no fallback; dossiernummer_record and
ondernummer_record are read (and can fail) but never used afterwards. -/
def sgd_fields (record : KstRecord) : Option KstFields := do
  let _ ← record.dossiernummer
  let _ ← record.ondernummer
  let dossiertitel ← record.dcterms_title
  let documenttitel ← record.dcterms_description
  let vergaderjaar ← record.vergaderjaar
  let creator ← record.creator
  pure ⟨dossiertitel, documenttitel, vergaderjaar, creator⟩

/-- New-style extraction (kamerstuk.py lines 247-260): documenttitel tries the
dedicated element, then dcterms:title, then dcterms:description; the other
fields have one fixed path each. -/
def op_fields (record : KstRecord) : Option KstFields := do
  let _ ← record.dossiernummer
  let _ ← record.ondernummer
  let dossiertitel ← record.dossiertitel
  let documenttitel ←
    match record.documenttitel with
    | some t => some t
    | none =>
      match record.dcterms_title with
      | some t => some t
      | none => record.dcterms_description
  let vergaderjaar ← record.vergaderjaar
  let creator ← record.creator
  pure ⟨dossiertitel, documenttitel, vergaderjaar, creator⟩

/-- The SRU query string built at kamerstuk.py line 231 from the normalized
numbers. -/
def kst_query (dossiernummer ondernummer : String) : String :=
  "(w.dossiernummer=" ++ dossiernummer ++ " AND w.ondernummer=" ++ ondernummer ++
    " AND dt.type=Kamerstuk)"

/-- kamerstuk.py lines 262-290: map creator to the chamber code, compose the
kst_info dict, insert it into the two-level cache (creating the inner dict
when the dossier key is new, lines 283-286), write the whole cache to the
file (line 288) and return. -/
def compose_and_cache (st : ModuleState) (dossiernummer ondernummer : String)
    (record : KstRecord) (f : KstFields) (q : String) : LookupResult :=
  let kamer :=
    if f.creator = "Tweede Kamer der Staten-Generaal" then "II"
    else if f.creator = "Eerste Kamer der Staten-Generaal" then "I"
    else "??"
  let kst_info : KstInfo :=
    { dossiernummer := dossiernummer
      ondernummer := ondernummer
      vergaderjaar := f.vergaderjaar
      kamer := kamer
      kamerstuktype := (get_kamerstuktype_from_title f.documenttitel record).value
      documenttitel := f.documenttitel
      dossiertitel := f.dossiertitel }
  let cache1 :=
    if (dictGet st.cache dossiernummer).isSome then st.cache
    else dictSet st.cache dossiernummer []
  let inner := (dictGet cache1 dossiernummer).getD []
  let cache2 := dictSet cache1 dossiernummer (dictSet inner ondernummer kst_info)
  ⟨Except.ok kst_info, ⟨cache2, cache2⟩, [q]⟩

/-- The cache-miss path of get_kst_information (kamerstuk.py lines 231-290),
taking the already-normalized numbers. The network is abstracted as a
function from the query string to the full record list that
koop_sru_api_request_all would collect for it. -/
def kst_information_miss (net : String → List KstRecord) (st : ModuleState)
    (dossiernummer ondernummer : String) : LookupResult :=
  let q := kst_query dossiernummer ondernummer
  let records := net q
  match records.head? with
  | none => ⟨Except.error .notFound, st, [q]⟩
  | some record =>
    match record.product_area with
    | none => ⟨Except.error .missingField, st, [q]⟩
    | some product_area =>
      if product_area = "sgd" then
        match sgd_fields record with
        | none => ⟨Except.error .missingField, st, [q]⟩
        | some f => compose_and_cache st dossiernummer ondernummer record f q
      else if product_area = "officielepublicaties" then
        match op_fields record with
        | none => ⟨Except.error .missingField, st, [q]⟩
        | some f => compose_and_cache st dossiernummer ondernummer record f q
      else
        ⟨Except.error .unboundLocal, st, [q]⟩

/-- kamerstuk.py lines 218-290: get information about a specific kamerstuk,
memoizing the results. Both numbers are whitespace-stripped (lines 224-225),
then the cache is consulted (lines 227-229); on a hit the stored value is
returned with no network access, otherwise the miss path runs. -/
def get_kst_information (net : String → List KstRecord) (st : ModuleState)
    (dossiernummer ondernummer : String) : LookupResult :=
  let dossiernummer := strip_whitespace dossiernummer
  let ondernummer := strip_whitespace ondernummer
  match cache_lookup st.cache dossiernummer ondernummer with
  | some v => ⟨Except.ok v, st, []⟩
  | none => kst_information_miss net st dossiernummer ondernummer

/-! ### Startup cache loading (kamerstuk.py lines 56-62 and 293) -/

/-- The possible states of kamerstuk_information.json at startup: unopenable
(for example absent), present but not valid JSON, or present with a parsed
two-level mapping. -/
inductive CacheFileState
  | missing
  | invalidJson
  | valid (c : Cache)
  deriving Repr

/-- kamerstuk.py lines 56-62. The open call sits outside the try block, so a
file that cannot be opened propagates its exception (error ()). Inside the
function, both assignments to __kamerstuk_information_cache bind a
function-local name (there is no global declaration), so in every non-raising
case the module-level cache is returned unchanged; only
json.decoder.JSONDecodeError is caught. -/
def load_kamerstuk_information_cache (file : CacheFileState) (module_cache : Cache) :
    Except Unit Cache :=
  match file with
  | .missing => Except.error ()
  | .invalidJson => Except.ok module_cache
  | .valid _ => Except.ok module_cache

/-- Module initialization: the cache starts as the empty dict (line 21) and
__load_kamerstuk_information_cache runs once at import time (line 293).
Returns the in-memory cache after startup, or error () when startup raised. -/
def startup_cache (file : CacheFileState) : Except Unit Cache :=
  load_kamerstuk_information_cache file []

/-! ### Concrete inputs used in witnesses and counterexamples -/

/-- A record in which every element is absent. -/
def empty_record : KstRecord := ⟨none, none, none, none, none, none, none, none, none, none⟩

/-- A concrete new-style record for dossier 36229, ondernummer 2. -/
def demo_record : KstRecord :=
  { product_area := some "officielepublicaties"
    dossiernummer := some "36229"
    ondernummer := some "2"
    dcterms_title := none
    dcterms_description := none
    dossiertitel := some "Wijziging van enkele wetten"
    documenttitel := some "Brief van de minister"
    vergaderjaar := some "2022-2023"
    creator := some "Tweede Kamer der Staten-Generaal"
    opgegeven_kamerstuktype := none }

/-- A network on which every query finds exactly the demo record. -/
def demo_net : String → List KstRecord := fun _ => [demo_record]

/-- The result get_kst_information composes from demo_record. -/
def demo_info : KstInfo :=
  { dossiernummer := "36229"
    ondernummer := "2"
    vergaderjaar := "2022-2023"
    kamer := "II"
    kamerstuktype := "Brief"
    documenttitel := "Brief van de minister"
    dossiertitel := "Wijziging van enkele wetten" }

/-- The two-level cache holding exactly the demo entry. -/
def demo_cache : Cache := [("36229", [("2", demo_info)])]

/-- Modelled from the spec: the closed enumeration of exactly 14 DocumentType
categories listed in its data model, mapped to the enum members of
kamerstuk.py by their Dutch labels; the list has no counterpart for the
fifteenth member MEMORIE_VAN_ANTWOORD (the type rule r of the spec labels
Memorandum of Reply), reading the listed Amendment Memorandum as the
Amendment/Revision Memorandum (Nota van wijziging) of its rule u. -/
def spec_document_types : List KamerstukType :=
  [.KONINKLIJKE_BOODSCHAP, .GELEIDENDE_BRIEF, .WETSVOORSTEL, .MEMORIE_VAN_TOELICHTING,
   .ADVIES_RVS, .VOORLICHTING_RVS, .VERSLAG, .NOTA_NA_VERSLAG, .NOTA_VAN_WIJZIGING,
   .AMENDEMENT, .MOTIE, .BRIEF, .JAARVERSLAG, .ONBEKEND]

/-- The 14 enum members the classifier can actually return: every member of
the 15-element enum except GELEIDENDE_BRIEF, which no rule and no fallback
produces. -/
def classifier_range : List KamerstukType :=
  [.KONINKLIJKE_BOODSCHAP, .WETSVOORSTEL, .MEMORIE_VAN_TOELICHTING, .ADVIES_RVS,
   .VOORLICHTING_RVS, .VERSLAG, .NOTA_NA_VERSLAG, .NOTA_VAN_WIJZIGING,
   .MEMORIE_VAN_ANTWOORD, .AMENDEMENT, .MOTIE, .BRIEF, .JAARVERSLAG, .ONBEKEND]

/-- A record source in which the page at offset k holds the record identifiers
k, k+1, ... : the response always declares N records in total and each page
carries min 100 (N - k) of them. -/
def numbered_pages (N : Nat) : String → Nat → Nat → SruResponse Nat :=
  fun _ k _ => ⟨N, (List.range (min 100 (N - k))).map (fun j => k + j)⟩

/-- A record source whose first page declares 5 records but carries only one,
while every later page is empty: the fetch loop can never reach the declared
total. -/
def starved_pages : String → Nat → Nat → SruResponse Nat :=
  fun _ k _ => if k = 0 then ⟨5, [42]⟩ else ⟨5, []⟩

/-- A record whose product-area discriminator is neither sgd nor
officielepublicaties. -/
def weird_record : KstRecord :=
  { empty_record with product_area := some "weird" }

/-! ### Helper lemmas: the cache -/

theorem dictGet_dictSet_self {β : Type} (m : List (String × β)) (k : String) (v : β) :
    dictGet (dictSet m k v) k = some v := by
  induction m with
  | nil => simp [dictGet, dictSet]
  | cons p rest ih =>
    obtain ⟨k', v'⟩ := p
    by_cases h : k' = k
    · simp [dictGet, dictSet, h]
    · simp [dictGet, dictSet, h, ih]

theorem compose_and_cache_ok_lookup (st : ModuleState) (d o : String) (record : KstRecord)
    (f : KstFields) (q : String) (v : KstInfo) (st1 : ModuleState) (qs : List String)
    (h : compose_and_cache st d o record f q = ⟨Except.ok v, st1, qs⟩) :
    cache_lookup st1.cache d o = some v := by
  simp only [compose_and_cache, LookupResult.mk.injEq, Except.ok.injEq] at h
  obtain ⟨hv, hst, -⟩ := h
  subst hst
  simp only [cache_lookup, dictGet_dictSet_self, hv]

theorem kst_information_miss_ok_lookup (net : String → List KstRecord) (st : ModuleState)
    (d o : String) (v : KstInfo) (st1 : ModuleState) (qs : List String)
    (h : kst_information_miss net st d o = ⟨Except.ok v, st1, qs⟩) :
    cache_lookup st1.cache d o = some v := by
  simp only [kst_information_miss] at h
  split at h
  case _ => simp_all
  case _ =>
    split at h
    case _ => simp_all
    case _ =>
      split at h
      case _ =>
        split at h
        case _ => simp_all
        case _ => exact compose_and_cache_ok_lookup _ _ _ _ _ _ _ _ _ h
      case _ =>
        split at h
        case _ =>
          split at h
          case _ => simp_all
          case _ => exact compose_and_cache_ok_lookup _ _ _ _ _ _ _ _ _ h
        case _ => simp_all

/-! ### Helper lemmas: the classifier -/

set_option maxHeartbeats 2000000 in
theorem kamerstuk_rules_mem (title opgegeven : String) (k : KamerstukType)
    (h : kamerstuk_rules title opgegeven = some k) : k ∈ classifier_range := by
  unfold kamerstuk_rules at h
  by_cases h1 : opgegeven = "Brief" ∨ py_startswith title "brief"
  · rw [if_pos h1] at h
    injection h with h
    subst h
    decide
  rw [if_neg h1] at h
  by_cases h2 : opgegeven = "Amendement"
  · rw [if_pos h2] at h
    injection h with h
    subst h
    decide
  rw [if_neg h2] at h
  by_cases h3 : opgegeven = "Motie"
  · rw [if_pos h3] at h
    injection h with h
    subst h
    decide
  rw [if_neg h3] at h
  by_cases h4 : opgegeven = "Voorstel van wet"
  · rw [if_pos h4] at h
    injection h with h
    subst h
    decide
  rw [if_neg h4] at h
  by_cases h5 : opgegeven = "Koninklijke boodschap" ∨ py_startswith title "koninklijke boodschap"
  · rw [if_pos h5] at h
    injection h with h
    subst h
    decide
  rw [if_neg h5] at h
  by_cases h6 : opgegeven = "Memorie van toelichting"
  · rw [if_pos h6] at h
    injection h with h
    subst h
    decide
  rw [if_neg h6] at h
  by_cases h7 : opgegeven = "Jaarverslag"
  · rw [if_pos h7] at h
    injection h with h
    subst h
    decide
  rw [if_neg h7] at h
  by_cases h8 : opgegeven = "Verslag"
  · rw [if_pos h8] at h
    injection h with h
    subst h
    decide
  rw [if_neg h8] at h
  by_cases h9 : py_startswith title "motie" ∨ py_startswith title "gewijzigde motie"
  · rw [if_pos h9] at h
    injection h with h
    subst h
    decide
  rw [if_neg h9] at h
  by_cases h10 : py_startswith title "amendement" ∨ py_startswith title "gewijzigd amendement"
  · rw [if_pos h10] at h
    injection h with h
    subst h
    decide
  rw [if_neg h10] at h
  by_cases h11 : py_startswith title "voorstel van wet" ∨ py_startswith title "gewijzigd voorstel van wet" ∨ py_startswith title "ontwerp van wet"
  · rw [if_pos h11] at h
    injection h with h
    subst h
    decide
  rw [if_neg h11] at h
  by_cases h12 : py_endswith title "voorstel van wet" ∨ py_endswith title "gewijzigd voorstel van wet"
  · rw [if_pos h12] at h
    injection h with h
    subst h
    decide
  rw [if_neg h12] at h
  by_cases h13 : py_startswith title "advies afdeling advisering raad van state" ∨ py_startswith title "advies raad van state"
  · rw [if_pos h13] at h
    injection h with h
    subst h
    decide
  rw [if_neg h13] at h
  by_cases h14 : py_startswith title "voorlopig verslag" ∨ py_startswith title "verslag" ∨ py_startswith title "eindverslag" ∨ py_startswith title "nader voorlopig verslag"
  · rw [if_pos h14] at h
    injection h with h
    subst h
    decide
  rw [if_neg h14] at h
  by_cases h15 : py_endswith title "voorlopig verslag" ∨ py_endswith title "verslag" ∨ py_endswith title "eindverslag" ∨ py_startswith title "nader voorlopig verslag"
  · rw [if_pos h15] at h
    injection h with h
    subst h
    decide
  rw [if_neg h15] at h
  by_cases h16 : py_startswith title "nota naar aanleiding van het" ∨ py_endswith title "nota naar aanleiding van het"
  · rw [if_pos h16] at h
    injection h with h
    subst h
    decide
  rw [if_neg h16] at h
  by_cases h17 : py_startswith title "memorie van toelichting"
  · rw [if_pos h17] at h
    injection h with h
    subst h
    decide
  rw [if_neg h17] at h
  by_cases h18 : py_endswith title "memorie van toelichting"
  · rw [if_pos h18] at h
    injection h with h
    subst h
    decide
  rw [if_neg h18] at h
  by_cases h19 : py_startswith title "memorie van antwoord" ∨ py_startswith title "nadere memorie van antwoord"
  · rw [if_pos h19] at h
    injection h with h
    subst h
    decide
  rw [if_neg h19] at h
  by_cases h20 : py_endswith title "memorie van antwoord" ∨ py_endswith title "nadere memorie van antwoord"
  · rw [if_pos h20] at h
    injection h with h
    subst h
    decide
  rw [if_neg h20] at h
  by_cases h21 : py_startswith title "voorlichting van de afdeling advisering van de raad van state"
  · rw [if_pos h21] at h
    injection h with h
    subst h
    decide
  rw [if_neg h21] at h
  by_cases h22 : py_startswith (py_lower title) "jaarverslag"
  · rw [if_pos h22] at h
    injection h with h
    subst h
    decide
  rw [if_neg h22] at h
  by_cases h23 : py_contains (py_lower title) "nota van wijziging"
  · rw [if_pos h23] at h
    injection h with h
    subst h
    decide
  rw [if_neg h23] at h
  exact Option.noConfusion h

theorem get_kamerstuktype_aux_mem (record : KstRecord) :
    ∀ (l : Nat) (title : String), get_kamerstuktype_aux record l title ∈ classifier_range := by
  intro l
  induction l with
  | zero =>
    intro title
    simp only [get_kamerstuktype_aux]
    cases hr : kamerstuk_rules (normalize_title title) (record.opgegeven_kamerstuktype.getD "") with
    | some k => exact kamerstuk_rules_mem _ _ _ hr
    | none => decide
  | succ l ih =>
    intro title
    simp only [get_kamerstuktype_aux]
    cases hr : kamerstuk_rules (normalize_title title) (record.opgegeven_kamerstuktype.getD "") with
    | some k => exact kamerstuk_rules_mem _ _ _ hr
    | none => exact ih _

theorem get_kamerstuktype_aux_congr (record : KstRecord) (l : Nat) (s t : String)
    (h : normalize_title s = normalize_title t) :
    get_kamerstuktype_aux record l s = get_kamerstuktype_aux record l t := by
  conv_lhs => rw [get_kamerstuktype_aux.eq_def]
  conv_rhs => rw [get_kamerstuktype_aux.eq_def]
  rw [h]

/-! ### Helper lemmas: the paginated fetch -/

theorem koop_sru_loop_full {α : Type} (req : String → Nat → Nat → SruResponse α) (q : String)
    (N : Nat) (hlen : ∀ k, ((req q k 100).records).length = min 100 (N - k)) :
    ∀ (fuel i : Nat) (recs : List α) (offs : List Nat),
      recs.length = min ((i + 1) * 100) N →
      i * 100 < N →
      N ≤ fuel * 100 + (i + 1) * 100 →
      recs = (List.range (i + 1)).flatMap (fun j => (req q (j * 100) 100).records) →
      offs = (List.range (i + 1)).map (fun j => j * 100) →
      koop_sru_loop req q N 100 fuel (i * 100) recs offs =
        some ((List.range ((N + 99) / 100)).flatMap (fun j => (req q (j * 100) 100).records),
              (List.range ((N + 99) / 100)).map (fun j => j * 100)) := by
  intro fuel
  induction fuel with
  | zero =>
    intro i recs offs hrecs hi hfuel hR hO
    have hstop : ¬ (recs.length < N) := by omega
    have hceil : (N + 99) / 100 = i + 1 := by omega
    simp only [koop_sru_loop, if_neg hstop]
    rw [hR, hO, hceil]
  | succ fuel ih =>
    intro i recs offs hrecs hi hfuel hR hO
    by_cases hcont : recs.length < N
    · have hi1 : (i + 1) * 100 < N := by omega
      simp only [koop_sru_loop, if_pos hcont]
      have harg : i * 100 + 100 = (i + 1) * 100 := by ring
      rw [harg]
      refine ih (i + 1) _ _ ?_ hi1 (by omega) ?_ ?_
      · rw [List.length_append, hrecs, hlen ((i + 1) * 100)]
        omega
      · rw [hR]
        simp [List.range_succ, List.flatMap_append, List.append_assoc]
      · rw [hO]
        simp [List.range_succ]
    · have hceil : (N + 99) / 100 = i + 1 := by omega
      simp only [koop_sru_loop, if_neg hcont]
      rw [hR, hO, hceil]

theorem koop_sru_pages_length_sum {α : Type} (req : String → Nat → Nat → SruResponse α)
    (q : String) (N : Nat) (hlen : ∀ k, ((req q k 100).records).length = min 100 (N - k)) :
    ∀ c : Nat,
      ((List.range c).flatMap (fun j => (req q (j * 100) 100).records)).length = min (c * 100) N := by
  intro c
  induction c with
  | zero => simp
  | succ c ih =>
    rw [List.range_succ]
    simp only [List.flatMap_append, List.length_append, ih, List.flatMap_cons,
      List.flatMap_nil, List.append_nil, hlen]
    omega

theorem koop_sru_loop_congr {α : Type} (req req2 : String → Nat → Nat → SruResponse α)
    (q : String) (N P : Nat) (hrec : ∀ k m, (req q k m).records = (req2 q k m).records) :
    ∀ (fuel start : Nat) (recs : List α) (offs : List Nat),
      koop_sru_loop req q N P fuel start recs offs = koop_sru_loop req2 q N P fuel start recs offs := by
  intro fuel
  induction fuel with
  | zero => intro start recs offs; rfl
  | succ fuel ih =>
    intro start recs offs
    simp only [koop_sru_loop]
    by_cases h : recs.length < N
    · simp only [if_pos h, hrec]
      exact ih _ _ _
    · simp only [if_neg h]

theorem koop_sru_loop_starve {α : Type} (req : String → Nat → Nat → SruResponse α)
    (q : String) (N P : Nat) (hP : 0 < P)
    (hempty : ∀ k m, k ≠ 0 → (req q k m).records = []) :
    ∀ (fuel start : Nat) (recs : List α) (offs : List Nat),
      recs.length < N → koop_sru_loop req q N P fuel start recs offs = none := by
  intro fuel
  induction fuel with
  | zero =>
    intro start recs offs hlt
    simp only [koop_sru_loop, if_pos hlt]
  | succ fuel ih =>
    intro start recs offs hlt
    simp only [koop_sru_loop, if_pos hlt]
    rw [hempty (start + P) P (by omega), List.append_nil]
    exact ih _ _ _ hlt

theorem koop_sru_loop_some_length {α : Type} (req : String → Nat → Nat → SruResponse α)
    (q : String) (N P : Nat) :
    ∀ (fuel start : Nat) (recs : List α) (offs : List Nat) (R : List α) (O : List Nat),
      koop_sru_loop req q N P fuel start recs offs = some (R, O) → N ≤ R.length := by
  intro fuel
  induction fuel with
  | zero =>
    intro start recs offs R O h
    simp only [koop_sru_loop] at h
    by_cases hlt : recs.length < N
    · rw [if_pos hlt] at h; exact Option.noConfusion h
    · rw [if_neg hlt] at h
      injection h with h
      obtain ⟨rfl, rfl⟩ := Prod.mk.injEq .. ▸ (Prod.mk.injEq _ _ _ _).mp h
      omega
  | succ fuel ih =>
    intro start recs offs R O h
    simp only [koop_sru_loop] at h
    by_cases hlt : recs.length < N
    · rw [if_pos hlt] at h
      exact ih _ _ _ _ _ h
    · rw [if_neg hlt] at h
      injection h with h
      obtain ⟨rfl, rfl⟩ := Prod.mk.injEq .. ▸ (Prod.mk.injEq _ _ _ _).mp h
      omega

theorem koop_sru_loop_done {α : Type} (req : String → Nat → Nat → SruResponse α)
    (q : String) (N P : Nat) (fuel start : Nat) (recs : List α) (offs : List Nat)
    (h : N ≤ recs.length) :
    koop_sru_loop req q N P fuel start recs offs = some (recs, offs) := by
  cases fuel <;> simp only [koop_sru_loop, if_neg (by omega : ¬ recs.length < N)]

/-! ### Claim theorems -/

/-- C1: Memoization idempotence — after one successful get_kst_information
call for a (dossiernummer, ondernummer) pair, a second call in the same
process with the same pair up to whitespace differences (all whitespace is
stripped before use) performs zero network requests and returns the identical
kst_info value, leaving the module state unchanged. -/
theorem c1_memoization_idempotence (net : String → List KstRecord) (st : ModuleState)
    (d o d2 o2 : String) (v : KstInfo) (st1 : ModuleState) (qs : List String)
    (hd : strip_whitespace d2 = strip_whitespace d)
    (ho : strip_whitespace o2 = strip_whitespace o)
    (h : get_kst_information net st d o = ⟨Except.ok v, st1, qs⟩) :
    get_kst_information net st1 d2 o2 = ⟨Except.ok v, st1, []⟩ := by
  have key : cache_lookup st1.cache (strip_whitespace d) (strip_whitespace o) = some v := by
    simp only [get_kst_information] at h
    cases hcl : cache_lookup st.cache (strip_whitespace d) (strip_whitespace o) with
    | some w =>
      rw [hcl] at h
      simp only [LookupResult.mk.injEq, Except.ok.injEq] at h
      obtain ⟨hv, hst, -⟩ := h
      subst hv
      subst hst
      exact hcl
    | none =>
      rw [hcl] at h
      exact kst_information_miss_ok_lookup _ _ _ _ _ _ _ h
  simp only [get_kst_information, hd, ho, key]

/-- Witness for C1 at a concrete state: the demo entry was inserted by a first
call (established by rfl), so the second call is a pure cache hit. -/
theorem c1_memoization_idempotence_witness :
    get_kst_information demo_net ⟨demo_cache, demo_cache⟩ "36229" "2" =
      ⟨Except.ok demo_info, ⟨demo_cache, demo_cache⟩, []⟩ :=
  c1_memoization_idempotence demo_net ⟨[], []⟩ "36229 " " 2" "36229" "2" demo_info
    ⟨demo_cache, demo_cache⟩ [kst_query "36229" "2"] rfl rfl rfl

/-- C2: Paginated fetch completeness — for a first response declaring N
records with page size 100 and pages of min 100 (N - k) records at offset k,
koop_sru_api_request_all issues exactly ceil (N / 100) page requests at
offsets 0, 100, 200, ... and returns exactly N records in page-arrival order,
for any N greater than 100. -/
theorem c2_paginated_fetch_complete {α : Type} (req : String → Nat → Nat → SruResponse α)
    (q : String) (N : Nat) (hN : 100 < N)
    (hnum : (req q 0 100).numberOfRecords = N)
    (hlen : ∀ k, ((req q k 100).records).length = min 100 (N - k)) :
    koop_sru_api_request_all req q N =
      some ((List.range ((N + 99) / 100)).flatMap (fun j => (req q (j * 100) 100).records),
            (List.range ((N + 99) / 100)).map (fun j => j * 100)) ∧
    ((List.range ((N + 99) / 100)).flatMap (fun j => (req q (j * 100) 100).records)).length = N := by
  constructor
  · simp only [koop_sru_api_request_all, hnum]
    exact koop_sru_loop_full req q N hlen N 0 _ _
      (by rw [hlen 0]; omega) (by omega) (by omega)
      (by simp [List.range_succ, List.flatMap_cons, List.flatMap_nil])
      (by simp [List.range_succ])
  · rw [koop_sru_pages_length_sum req q N hlen]
    omega

/-- Witness for C2: the numbered source with N = 250 yields three page
requests at offsets 0, 100, 200 and 250 records. -/
theorem c2_paginated_fetch_complete_witness :
    koop_sru_api_request_all (numbered_pages 250) "query" 250 =
      some ((List.range ((250 + 99) / 100)).flatMap
              (fun j => (numbered_pages 250 "query" (j * 100) 100).records),
            (List.range ((250 + 99) / 100)).map (fun j => j * 100)) ∧
    ((List.range ((250 + 99) / 100)).flatMap
        (fun j => (numbered_pages 250 "query" (j * 100) 100).records)).length = 250 :=
  c2_paginated_fetch_complete (numbered_pages 250) "query" 250 (by omega) rfl
    (fun k => by simp [numbered_pages])

/-- C3: Classifier totality and bounded recursion — a tail pass never
recurses: it returns the first matching rule or ONBEKEND; and a first pass on
which no rule matches classifies exactly the tail segment once with the
recursive flag set. Totality holds by construction (the classifier is a total
function into KamerstukType). -/
theorem c3_classifier_single_recursion :
    (∀ (title : String) (record : KstRecord),
        get_kamerstuktype_from_title title record true =
          (kamerstuk_rules (normalize_title title)
              (record.opgegeven_kamerstuktype.getD "")).getD .ONBEKEND) ∧
    (∀ (title : String) (record : KstRecord),
        kamerstuk_rules (normalize_title title) (record.opgegeven_kamerstuktype.getD "") = none →
        get_kamerstuktype_from_title title record false =
          get_kamerstuktype_from_title (py_split_second (normalize_title title) "; ")
            record true) := by
  constructor
  · intro title record
    show get_kamerstuktype_aux record 0 title = _
    rw [get_kamerstuktype_aux.eq_def]
    cases hr : kamerstuk_rules (normalize_title title) (record.opgegeven_kamerstuktype.getD "") <;>
      simp [hr]
  · intro title record h
    show get_kamerstuktype_aux record 1 title =
      get_kamerstuktype_aux record 0 (py_split_second (normalize_title title) "; ")
    rw [get_kamerstuktype_aux.eq_def]
    simp only [h]

/-- Witness for C3: a title matching no rule is classified via exactly one
pass over its tail segment. -/
theorem c3_classifier_single_recursion_witness :
    get_kamerstuktype_from_title "Regeling van werkzaamheden; Motie van het lid X"
        empty_record false =
      get_kamerstuktype_from_title
        (py_split_second (normalize_title "Regeling van werkzaamheden; Motie van het lid X") "; ")
        empty_record true :=
  c3_classifier_single_recursion.2 "Regeling van werkzaamheden; Motie van het lid X"
    empty_record (by decide)

/-- C4 (code-bug evidence): the loader assigns the parsed cache file to a
function-local name, so after startup on a file that holds the demo entry the
in-memory cache is empty; a lookup of the stored pair then issues a network
query instead of the claimed no-network cache hit. The third conjunct shows
the hit that would have occurred had the file contents actually reached the
module-level cache. -/
theorem c4_cache_warm_start_code_bug :
    startup_cache (CacheFileState.valid demo_cache) = Except.ok ([] : Cache) ∧
    (get_kst_information (fun _ => []) ⟨[], demo_cache⟩ "36229" "2").queries =
      [kst_query "36229" "2"] ∧
    get_kst_information (fun _ => []) ⟨demo_cache, demo_cache⟩ "36229" "2" =
      ⟨Except.ok demo_info, ⟨demo_cache, demo_cache⟩, []⟩ :=
  ⟨rfl, rfl, rfl⟩

/-- C5 counterexample: a cache file that cannot be opened (for example a
missing file) makes startup fail, because the open call sits outside the
try/except block; so it is not the case that every load failure is recovered. -/
theorem c5_startup_load_counterexample :
    startup_cache CacheFileState.missing = Except.error () := rfl

/-- C5 amended: a cache file that opens but contains invalid JSON is
recovered: the JSONDecodeError is caught and the in-memory cache is empty
after startup, which continues normally. -/
theorem c5_startup_parse_failure_recovered :
    startup_cache CacheFileState.invalidJson = Except.ok ([] : Cache) := rfl

/-- C6 counterexample: the classifier returns MEMORIE_VAN_ANTWOORD (Memorandum
of Reply), which is not among the 14 categories enumerated by the spec, so the
value set is not the listed 14. -/
theorem c6_closed_enumeration_counterexample :
    get_kamerstuktype_from_title "Memorie van antwoord" empty_record = .MEMORIE_VAN_ANTWOORD ∧
    KamerstukType.MEMORIE_VAN_ANTWOORD ∉ spec_document_types := by
  constructor
  · decide
  · decide

/-- C6 amended: the enum has exactly 15 members and every value the classifier
can return lies in the 14-element subset classifier_range (every member except
GELEIDENDE_BRIEF, which is never produced); ONBEKEND is the terminal fallback
value, never an error. -/
theorem c6_closed_enumeration :
    Fintype.card KamerstukType = 15 ∧
    KamerstukType.GELEIDENDE_BRIEF ∉ classifier_range ∧
    ∀ (title : String) (record : KstRecord) (is_tail : Bool),
      get_kamerstuktype_from_title title record is_tail ∈ classifier_range := by
  refine ⟨by decide, by decide, ?_⟩
  intro title record is_tail
  exact get_kamerstuktype_aux_mem record _ title

/-- C7: Lax substring rule — whenever the normalized title contains
"nota van wijziging" anywhere as a substring and none of the earlier,
higher-priority rules matches, the classifier returns NOTA_VAN_WIJZIGING
directly, on first passes and tail passes alike (so without a tail pass). -/
theorem c7_lax_substring_rule (title : String) (record : KstRecord) (is_tail : Bool)
    (t z : String)
    (ht : t = normalize_title title)
    (hz : z = record.opgegeven_kamerstuktype.getD "")
    (h1 : ¬ (z = "Brief" ∨ py_startswith t "brief"))
    (h2 : ¬ z = "Amendement")
    (h3 : ¬ z = "Motie")
    (h4 : ¬ z = "Voorstel van wet")
    (h5 : ¬ (z = "Koninklijke boodschap" ∨ py_startswith t "koninklijke boodschap"))
    (h6 : ¬ z = "Memorie van toelichting")
    (h7 : ¬ z = "Jaarverslag")
    (h8 : ¬ z = "Verslag")
    (h9 : ¬ (py_startswith t "motie" ∨ py_startswith t "gewijzigde motie"))
    (h10 : ¬ (py_startswith t "amendement" ∨ py_startswith t "gewijzigd amendement"))
    (h11 : ¬ (py_startswith t "voorstel van wet" ∨ py_startswith t "gewijzigd voorstel van wet" ∨ py_startswith t "ontwerp van wet"))
    (h12 : ¬ (py_endswith t "voorstel van wet" ∨ py_endswith t "gewijzigd voorstel van wet"))
    (h13 : ¬ (py_startswith t "advies afdeling advisering raad van state" ∨ py_startswith t "advies raad van state"))
    (h14 : ¬ (py_startswith t "voorlopig verslag" ∨ py_startswith t "verslag" ∨ py_startswith t "eindverslag" ∨ py_startswith t "nader voorlopig verslag"))
    (h15 : ¬ (py_endswith t "voorlopig verslag" ∨ py_endswith t "verslag" ∨ py_endswith t "eindverslag" ∨ py_startswith t "nader voorlopig verslag"))
    (h16 : ¬ (py_startswith t "nota naar aanleiding van het" ∨ py_endswith t "nota naar aanleiding van het"))
    (h17 : ¬ py_startswith t "memorie van toelichting")
    (h18 : ¬ py_endswith t "memorie van toelichting")
    (h19 : ¬ (py_startswith t "memorie van antwoord" ∨ py_startswith t "nadere memorie van antwoord"))
    (h20 : ¬ (py_endswith t "memorie van antwoord" ∨ py_endswith t "nadere memorie van antwoord"))
    (h21 : ¬ py_startswith t "voorlichting van de afdeling advisering van de raad van state")
    (h22 : ¬ py_startswith (py_lower t) "jaarverslag")
    (h23 : py_contains (py_lower t) "nota van wijziging") :
    get_kamerstuktype_from_title title record is_tail = .NOTA_VAN_WIJZIGING := by
  subst ht
  subst hz
  have hrules : kamerstuk_rules (normalize_title title)
      (record.opgegeven_kamerstuktype.getD "") = some .NOTA_VAN_WIJZIGING := by
    unfold kamerstuk_rules
    rw [if_neg h1, if_neg h2, if_neg h3, if_neg h4, if_neg h5, if_neg h6, if_neg h7, if_neg h8, if_neg h9, if_neg h10, if_neg h11, if_neg h12, if_neg h13, if_neg h14, if_neg h15, if_neg h16, if_neg h17, if_neg h18, if_neg h19, if_neg h20, if_neg h21, if_neg h22, if_pos h23]
  show get_kamerstuktype_aux record (if is_tail then 0 else 1) title = _
  rw [get_kamerstuktype_aux.eq_def]
  simp only [hrules]

/-- Witness for C7: a mid-sentence occurrence that matches no earlier rule. -/
theorem c7_lax_substring_rule_witness :
    get_kamerstuktype_from_title "Advies over de derde nota van wijziging" empty_record false =
      .NOTA_VAN_WIJZIGING :=
  c7_lax_substring_rule "Advies over de derde nota van wijziging" empty_record false
    "advies over de derde nota van wijziging" "" rfl rfl
    (by decide)
    (by decide)
    (by decide)
    (by decide)
    (by decide)
    (by decide)
    (by decide)
    (by decide)
    (by decide)
    (by decide)
    (by decide)
    (by decide)
    (by decide)
    (by decide)
    (by decide)
    (by decide)
    (by decide)
    (by decide)
    (by decide)
    (by decide)
    (by decide)
    (by decide)
    (by decide)

/-- C8: Normalization invariance — two titles with the same normalized form
(lowercasing and identifying the digit 0 with the letter o) classify
identically for every record and flag; in particular arbitrary case changes
and o/0 substitutions do not change the result. -/
theorem c8_normalization_invariance (s t : String) (record : KstRecord) (is_tail : Bool)
    (h : normalize_title s = normalize_title t) :
    get_kamerstuktype_from_title s record is_tail =
      get_kamerstuktype_from_title t record is_tail := by
  show get_kamerstuktype_aux record (if is_tail then 0 else 1) s =
    get_kamerstuktype_aux record (if is_tail then 0 else 1) t
  exact get_kamerstuktype_aux_congr record _ s t h

/-- Witness for C8: a title beginning M0tie classifies like one beginning
Motie. -/
theorem c8_normalization_invariance_witness :
    get_kamerstuktype_from_title "M0tie over de zorg" empty_record false =
      get_kamerstuktype_from_title "Motie over de zorg" empty_record false :=
  c8_normalization_invariance "M0tie over de zorg" "Motie over de zorg" empty_record false rfl

/-- C9: Pagination termination precondition — the declared total is read only
from the first response (the loop result depends only on the first response
and the record lists); the loop returns only once the collected count reaches
that total; when every later page is empty while fewer than the declared
total were collected, no amount of fuel makes the loop terminate; and when
the first page already reaches the total the loop returns it at once. -/
theorem c9_pagination_termination :
    (∀ (α : Type) (req req2 : String → Nat → Nat → SruResponse α) (q : String) (fuel : Nat),
        (req q 0 100).numberOfRecords = (req2 q 0 100).numberOfRecords →
        (∀ k m, (req q k m).records = (req2 q k m).records) →
        koop_sru_api_request_all req q fuel = koop_sru_api_request_all req2 q fuel) ∧
    (∀ (α : Type) (req : String → Nat → Nat → SruResponse α) (q : String),
        ((req q 0 100).records).length < (req q 0 100).numberOfRecords →
        (∀ k m, k ≠ 0 → (req q k m).records = []) →
        ∀ fuel : Nat, koop_sru_api_request_all req q fuel = none) ∧
    (∀ (α : Type) (req : String → Nat → Nat → SruResponse α) (q : String) (fuel : Nat)
        (R : List α) (O : List Nat),
        koop_sru_api_request_all req q fuel = some (R, O) →
        (req q 0 100).numberOfRecords ≤ R.length) ∧
    (∀ (α : Type) (req : String → Nat → Nat → SruResponse α) (q : String) (fuel : Nat),
        (req q 0 100).numberOfRecords ≤ ((req q 0 100).records).length →
        koop_sru_api_request_all req q fuel = some ((req q 0 100).records, [0])) := by
  refine ⟨?_, ?_, ?_, ?_⟩
  · intro α req req2 q fuel hnum hrec
    simp only [koop_sru_api_request_all]
    rw [hrec 0 100, hnum]
    exact koop_sru_loop_congr req req2 q _ 100 hrec fuel 0 _ _
  · intro α req q hlt hempty fuel
    simp only [koop_sru_api_request_all]
    exact koop_sru_loop_starve req q _ 100 (by omega) hempty fuel 0 _ _ hlt
  · intro α req q fuel R O h
    simp only [koop_sru_api_request_all] at h
    exact koop_sru_loop_some_length req q _ 100 fuel 0 _ _ R O h
  · intro α req q fuel hle
    simp only [koop_sru_api_request_all]
    exact koop_sru_loop_done req q _ 100 fuel 0 _ _ hle

/-- Witness for C9: the starved source never terminates, for instance with
fuel 1000; a source whose first page already carries its whole total returns
immediately. -/
theorem c9_pagination_termination_witness :
    koop_sru_api_request_all starved_pages "any" 1000 = none ∧
    koop_sru_api_request_all (numbered_pages 50) "any" 7 =
      some ((numbered_pages 50 "any" 0 100).records, [0]) :=
  ⟨c9_pagination_termination.2.1 Nat starved_pages "any" (by decide)
      (fun k m hk => by simp [starved_pages, hk]) 1000,
   c9_pagination_termination.2.2.2 Nat (numbered_pages 50) "any" 7 (by decide)⟩

/-- C10: an unrecognized product-area discriminator on the first returned
record makes get_kst_information fail with the unbound-local error before any
result is composed, leaving the in-memory cache and the persisted file
unchanged and having issued exactly the one search query. -/
theorem c10_unknown_product_area_error (net : String → List KstRecord) (st : ModuleState)
    (d o : String) (record : KstRecord) (pa : String)
    (hmiss : cache_lookup st.cache (strip_whitespace d) (strip_whitespace o) = none)
    (hrec : (net (kst_query (strip_whitespace d) (strip_whitespace o))).head? = some record)
    (hpa : record.product_area = some pa)
    (h1 : pa ≠ "sgd") (h2 : pa ≠ "officielepublicaties") :
    get_kst_information net st d o =
      ⟨Except.error .unboundLocal, st,
        [kst_query (strip_whitespace d) (strip_whitespace o)]⟩ := by
  simp only [get_kst_information, hmiss]
  simp only [kst_information_miss, hrec, hpa]
  rw [if_neg h1, if_neg h2]

/-- Witness for C10 on a concrete record with product-area "weird". -/
theorem c10_unknown_product_area_error_witness :
    get_kst_information (fun _ => [weird_record]) ⟨[], []⟩ "36229" "2" =
      ⟨Except.error .unboundLocal, ⟨[], []⟩, [kst_query "36229" "2"]⟩ :=
  c10_unknown_product_area_error (fun _ => [weird_record]) ⟨[], []⟩ "36229" "2"
    weird_record "weird" rfl rfl rfl (by decide) (by decide)

end Kamerstuk
